import Mathlib

/-!
Verification of the MCP client lifecycle controller from
`packages/langchain_skilder/src/langchain_skilder/mcp_only.py`
(the module `packages/langchain_2ly/src/langchain_2ly/mcp.py` is a
near-identical copy without the call-tool gateway and log level).

The development shallowly embeds:
- the configuration validator `_validate_auth` and the environment /
  launch-parameter construction in `MCPClient.__init__`;
- the lifecycle controller `MCPClient.start` / `MCPClient.stop` and the
  background task `MCPClient._run_session`, as an explicit state-passing
  model whose atomic steps are the stretches of code between `await`
  suspension points of the single-threaded cooperative (asyncio) scheduler;
- the tool invocation gateway `MCPClient.call_tool`, including a two-task
  interleaving model of the per-instance mutual-exclusion lock.
-/

namespace MCP

/-- Python truthiness of an optional string: `None` and the empty string
are falsy, every other string is truthy. -/
def truthy : Option String → Bool
  | none => false
  | some s => !s.isEmpty

/-- Error cases raised by `_validate_auth` (mcp_only.py lines 46-83); the
source raises `ValueError` with four distinct messages. -/
inductive AuthError where
  | noCredential
  | bothCredentials
  | missingNameForWorkspace
  | namePresentForScoped
deriving DecidableEq, Repr

/-- Messages of the four `ValueError`s raised by `_validate_auth`
(leading fragments of the source strings, quotes elided). -/
def authErrorMessage : AuthError → String
  | AuthError.noCredential =>
      "Authentication required: provide either workspace_key (with name) or skill_key."
  | AuthError.bothCredentials =>
      "Authentication conflict: provide either workspace_key or skill_key, not both."
  | AuthError.missingNameForWorkspace =>
      "When using workspace_key (workspace key), you must provide a name parameter to identify the skill."
  | AuthError.namePresentForScoped =>
      "When using skill_key, do not provide a name parameter. The skill is identified by the key itself."

/-- Translation of `_validate_auth(name, workspace_key, skill_key)`
(mcp_only.py lines 46-83). The credential checks are `is not None`
(`Option.isSome`); the name checks are Python truthiness (`not name`,
`and name`), under which the empty string counts as absent. -/
def validate_auth (name workspace_key skill_key : Option String) :
    Except AuthError Unit :=
  let has_workspace_key := workspace_key.isSome
  let has_skill_key := skill_key.isSome
  if !has_workspace_key && !has_skill_key then
    Except.error AuthError.noCredential
  else if has_workspace_key && has_skill_key then
    Except.error AuthError.bothCredentials
  else if has_workspace_key && !(truthy name) then
    Except.error AuthError.missingNameForWorkspace
  else if has_skill_key && truthy name then
    Except.error AuthError.namePresentForScoped
  else
    Except.ok ()

/-- Verdict the configuration-validator contract prescribes, written from
the spec sentence: exactly one of the two credentials must be non-absent,
credential A (workspace) requires a name, credential B (scoped) forbids a
name; each violation is reported by its own error. Name presence is
truthiness (an empty-string name counts as absent, cf. the implicit
behaviour recorded separately). Used only to be compared with
`validate_auth`. -/
def authSpecVerdict (name credentialA credentialB : Option String) :
    Except AuthError Unit :=
  if credentialA.isSome = false ∧ credentialB.isSome = false then
    Except.error AuthError.noCredential
  else if credentialA.isSome ∧ credentialB.isSome then
    Except.error AuthError.bothCredentials
  else if credentialA.isSome ∧ truthy name = false then
    Except.error AuthError.missingNameForWorkspace
  else if credentialB.isSome ∧ truthy name then
    Except.error AuthError.namePresentForScoped
  else
    Except.ok ()

/-- Launch parameters, mirroring `StdioServerParameters(command, args, env)`;
the environment is an association list in insertion order. -/
structure StdioServerParams where
  command : String
  args : List String
  env : List (String × String)
deriving DecidableEq, Repr

/-- Default of the `nats_servers` keyword of `MCPClient.__init__`. -/
def defaultNatsServers : String := "nats://localhost:4222"

/-- Constructed client configuration (the fields of `MCPClient` set by
`__init__` before the mutable session state). -/
structure ClientConfig where
  name : Option String
  serverParams : StdioServerParams
deriving DecidableEq, Repr

/-- Environment-dict construction of `MCPClient.__init__` (mcp_only.py
lines 207-219): `NATS_SERVERS` always; `WORKSPACE_KEY` and `SKILL_NAME`
when `workspace_key` is truthy; else `SKILL_KEY` when `skill_key` is
truthy; `LOG_LEVEL` when `log_level` is truthy. Absent fields are never
written. -/
def buildEnv (name workspace_key skill_key : Option String)
    (nats_servers : String) (log_level : Option String) :
    List (String × String) :=
  let env0 := [("NATS_SERVERS", nats_servers)]
  let env1 :=
    if truthy workspace_key then
      env0 ++ [("WORKSPACE_KEY", workspace_key.getD ""),
               ("SKILL_NAME", name.getD "")]
    else if truthy skill_key then
      env0 ++ [("SKILL_KEY", skill_key.getD "")]
    else env0
  if truthy log_level then env1 ++ [("LOG_LEVEL", log_level.getD "")]
  else env1

/-- Translation of `MCPClient.__init__` (mcp_only.py lines 178-237):
validate, build the environment dict, and build the
`StdioServerParameters`. The command and argument list are the hard-coded
`node` invocation of lines 224-225; the `npx @skilder-ai/runtime@<version>`
lines 222-223 are commented out in the source, so `version` is not used. -/
def clientInit (name workspace_key skill_key : Option String)
    (nats_servers : String) (version : String) (log_level : Option String) :
    Except AuthError ClientConfig :=
  match validate_auth name workspace_key skill_key with
  | Except.error e => Except.error e
  | Except.ok _ =>
    Except.ok
      { name := name
        serverParams :=
          { command := "node"
            args := ["/Users/ben/web/alpinai/Skilder/packages/runtime/dist/index.js"]
            env := buildEnv name workspace_key skill_key nats_servers log_level } }

/-- Keys of the launch environment of a constructed configuration. -/
def envKeys (cfg : ClientConfig) : List String :=
  cfg.serverParams.env.map Prod.fst

/-- Configuration constructed by
`MCPClient(name="X", workspace_key="WSK_1")` with defaults. -/
def exampleWorkspaceConfig : ClientConfig :=
  { name := some "X"
    serverParams :=
      { command := "node"
        args := ["/Users/ben/web/alpinai/Skilder/packages/runtime/dist/index.js"]
        env := [("NATS_SERVERS", defaultNatsServers),
                ("WORKSPACE_KEY", "WSK_1"), ("SKILL_NAME", "X")] } }

/-! ## Lifecycle state machine

Exceptions, the state of the one-shot readiness future, and the completion
status of the background runner task. -/

/-- Exceptions relevant to the lifecycle paths: `asyncio.CancelledError`,
`asyncio.TimeoutError`, and arbitrary other exceptions indexed by a number. -/
inductive Exc where
  | cancelledError
  | timeoutError
  | err (n : Nat)
deriving DecidableEq, Repr

/-- State of `self._started_future`: created pending, resolved at most once. -/
inductive FutureSt where
  | pending
  | done
deriving DecidableEq, Repr

/-- Completion status of the runner task as seen by an awaiter: still
running, completed normally, or completed with an exception (a cancelled
task is `doneRaised Exc.cancelledError`: awaiting it raises
`CancelledError`). -/
inductive TaskSt where
  | running
  | doneNormal
  | doneRaised (e : Exc)
deriving DecidableEq, Repr

/-- Mutable lifecycle fields of `MCPClient` (mcp_only.py lines 229-237):
`_session`, `_runner_task`, `_started_future`, `_stop_requested`,
`_runner_exception`, `_started`. The session handle is a `Nat` identifier. -/
structure ClientState where
  session : Option Nat
  runnerTask : Option TaskSt
  startedFuture : Option FutureSt
  stopRequested : Bool
  runnerException : Option Exc
  started : Bool
deriving DecidableEq, Repr

/-- Field values set by `__init__` (lines 230-235). -/
def initialClientState : ClientState :=
  { session := none, runnerTask := none, startedFuture := none,
    stopRequested := false, runnerException := none, started := false }

/-- Resolution of the readiness future (lines 398-399 and 404-405):
`if self._started_future is not None and not self._started_future.done():
self._started_future.set_result(None)` — a second resolution attempt is a
no-op. -/
def resolveFuture (s : ClientState) : ClientState :=
  match s.startedFuture with
  | some FutureSt.pending => { s with startedFuture := some FutureSt.done }
  | _ => s

/-- Body of the `except BaseException` handler of `_run_session`
(lines 402-406): record the runner exception, resolve the readiness
future if still pending, re-raise. -/
def runnerExcept (e : Exc) (s : ClientState) : ClientState :=
  resolveFuture { s with runnerException := some e }

/-- Body of the `finally` of `_run_session` (lines 407-408): clear the
shared session slot. Runs on every exit of the task. -/
def runnerFinally (s : ClientState) : ClientState :=
  { s with session := none }

/-- Handle identifier standing for the `ClientSession` object. -/
def sessionHandle : Nat := 1

/-- Possible executions of `_run_session`, determined by the environment:
the channel acquisition raises (or the task is cancelled there), opening
the protocol session raises, `initialize()` raises (or cancellation
arrives there), the handshake succeeds and the idle loop is later
cancelled, or the handshake succeeds and the loop exits because stop was
requested. -/
inductive RunnerOutcome where
  | acquireRaise (e : Exc)
  | sessionRaise (e : Exc)
  | initRaise (e : Exc)
  | okThenCancel
  | okThenStop
deriving DecidableEq, Repr

/-- How the runner task terminates. -/
inductive RunnerExit where
  | normal
  | raised (e : Exc)
deriving DecidableEq, Repr

/-- Result of running `_run_session`: the list of client states observable
by other tasks at the runner's `await` suspension points (in order), the
state after the task has exited, and the exit status. -/
structure RunnerRun where
  visible : List ClientState
  final : ClientState
  exit : RunnerExit
deriving DecidableEq, Repr

/-- Translation of `MCPClient._run_session` (mcp_only.py lines 387-408).
Atomic steps between suspension points: the initial state is observable
while `stdio_client(...)` is being entered; `self._session = session`
(line 396) executes when the `ClientSession` context is entered, BEFORE
`await session.initialize()` (line 397), so the state with the published
handle is observable during the handshake await; on success the future is
resolved (lines 398-399); exceptions and cancellation run `runnerExcept`
then the `finally` (`runnerFinally`); a normal loop exit runs only the
`finally`. -/
def run_session (o : RunnerOutcome) (s0 : ClientState) : RunnerRun :=
  match o with
  | RunnerOutcome.acquireRaise e =>
      { visible := [s0]
        final := runnerFinally (runnerExcept e s0)
        exit := RunnerExit.raised e }
  | RunnerOutcome.sessionRaise e =>
      { visible := [s0]
        final := runnerFinally (runnerExcept e s0)
        exit := RunnerExit.raised e }
  | RunnerOutcome.initRaise e =>
      let s1 := { s0 with session := some sessionHandle }
      { visible := [s0, s1]
        final := runnerFinally (runnerExcept e s1)
        exit := RunnerExit.raised e }
  | RunnerOutcome.okThenCancel =>
      let s1 := { s0 with session := some sessionHandle }
      let s2 := resolveFuture s1
      { visible := [s0, s1, s2]
        final := runnerFinally (runnerExcept Exc.cancelledError s2)
        exit := RunnerExit.raised Exc.cancelledError }
  | RunnerOutcome.okThenStop =>
      let s1 := { s0 with session := some sessionHandle }
      let s2 := resolveFuture s1
      { visible := [s0, s1, s2]
        final := runnerFinally s2
        exit := RunnerExit.normal }

/-- Exit status of `stop()`. Awaiting a runner task that completed with an
exception re-raises that exception inside `stop()`; only
`asyncio.TimeoutError` and `asyncio.CancelledError` are caught there
(lines 375-380), so any other exception propagates out of `stop()`. -/
inductive StopExit where
  | normal
  | raised (e : Exc)
deriving DecidableEq, Repr

/-- The `await asyncio.wait_for(self._runner_task, ...)` block of `stop()`
(lines 372-380), given whether the first await of a still-running task
exceeds the timeout. A running task asked to stop exits its poll loop and
runs its `finally`; on timeout it is cancelled, which runs `runnerExcept`
and the `finally`, and the cancellation is suppressed. A task that already
completed with exception `e` re-raises `e`, caught only for
`TimeoutError` (then the cancel/re-await path suppresses it) and
`CancelledError`. -/
def stopAwait (s : ClientState) (awaitTimesOut : Bool) :
    ClientState × Option Exc :=
  match s.runnerTask with
  | none => (s, none)
  | some TaskSt.running =>
      if awaitTimesOut then
        (runnerFinally (runnerExcept Exc.cancelledError s), none)
      else
        (runnerFinally s, none)
  | some TaskSt.doneNormal => (s, none)
  | some (TaskSt.doneRaised e) =>
      if e = Exc.timeoutError ∨ e = Exc.cancelledError then (s, none)
      else (s, some e)

/-- Assignments of the `finally` of `stop()` (lines 381-385) and of the
timeout handler of `start()` (lines 356-359): clear the task reference,
the readiness future, the session slot, and the started flag. -/
def clearState (s : ClientState) : ClientState :=
  { s with runnerTask := none, startedFuture := none,
           session := none, started := false }

/-- Translation of `MCPClient.stop` (mcp_only.py lines 366-385): return
immediately when not started and no task is outstanding; otherwise set the
stop-requested flag, await the task per `stopAwait`, and in all cases run
the `finally` clearing the four state fields; an exception re-raised by
awaiting the failed task propagates. -/
def stop (s : ClientState) (awaitTimesOut : Bool) : ClientState × StopExit :=
  if s.started = false ∧ s.runnerTask = none then (s, StopExit.normal)
  else
    match stopAwait { s with stopRequested := true } awaitTimesOut with
    | (s2, none) => (clearState s2, StopExit.normal)
    | (s2, some e) => (clearState s2, StopExit.raised e)

/-- Exit status of `start()`: normal return, the timeout `RuntimeError`
of line 360 (the startup-timeout error), the wrapping `RuntimeError` of
line 363 (the startup-failed error, `from self._runner_exception`), or a
bare exception propagating out of the `await self.stop()` of line 362. -/
inductive StartExit where
  | ok
  | startupTimeoutError
  | startupFailedError (e : Exc)
  | raised (e : Exc)
deriving DecidableEq, Repr

/-- Behaviour of the environment during the `await asyncio.wait_for(
self._started_future, ...)` of `start()`: the future is never resolved
within the timeout (the runner stuck acquiring the channel or in the
handshake, having published the session slot or not), or the runner task
ran to an exit that resolved the future, or the handshake succeeded and
the runner is idling in its poll loop. -/
inductive StartBehavior where
  | timeout (sessionPublished : Bool)
  | runnerDone (o : RunnerOutcome)
  | handshakeOk
deriving DecidableEq, Repr

/-- Translation of `MCPClient.start` (mcp_only.py lines 335-364). Returns
the post state, the exit status, and whether a runner task was launched.
Guard: immediate return when already started. Otherwise reset the
runner-exception slot, create a fresh pending future, clear the
stop-requested flag, launch the runner. On timeout of the readiness wait:
set stop-requested, cancel the runner (which runs its except/finally
cleanup; the cancellation is suppressed by `contextlib.suppress`), clear
the four state fields, raise the startup-timeout error. If the future
resolved and a runner exception is recorded: `await self.stop()` — note
the awaited failed task re-raises its exception inside `stop()`, which
propagates bare unless it is a timeout or cancellation, in which case
line 363 raises the wrapping startup-failed error. Otherwise mark
started. -/
def start (s : ClientState) (b : StartBehavior) :
    ClientState × StartExit × Bool :=
  if s.started then (s, StartExit.ok, false)
  else
    let s1 := { s with runnerException := none,
                       startedFuture := some FutureSt.pending,
                       stopRequested := false,
                       runnerTask := some TaskSt.running }
    match b with
    | StartBehavior.timeout sessionPublished =>
        let s2 := if sessionPublished then { s1 with session := some sessionHandle }
                  else s1
        let s3 := runnerFinally (runnerExcept Exc.cancelledError
                    { s2 with stopRequested := true })
        (clearState s3, StartExit.startupTimeoutError, true)
    | StartBehavior.runnerDone o =>
        let r := run_session o s1
        let task := match r.exit with
          | RunnerExit.normal => TaskSt.doneNormal
          | RunnerExit.raised e => TaskSt.doneRaised e
        let s2 := { r.final with runnerTask := some task }
        match s2.runnerException with
        | some e =>
            (match stop s2 false with
             | (s3, StopExit.normal) => (s3, StartExit.startupFailedError e, true)
             | (s3, StopExit.raised e2) => (s3, StartExit.raised e2, true))
        | none => ({ s2 with started := true }, StartExit.ok, true)
    | StartBehavior.handshakeOk =>
        let s2 := resolveFuture { s1 with session := some sessionHandle }
        ({ s2 with started := true }, StartExit.ok, true)

/-- Client state right after `start()` has launched the runner task
(lines 343-346): fresh pending future, running task, no session yet. -/
def launchedState : ClientState :=
  { initialClientState with startedFuture := some FutureSt.pending,
                            runnerTask := some TaskSt.running }

/-! ## Tool invocation gateway -/

/-- Remote response of `session.call_tool`: `content` items (modelled as
strings) and the `isError` flag. -/
structure ToolResponse where
  content : List String
  isError : Bool
deriving DecidableEq, Repr

/-- Dict returned by `MCPClient.call_tool`: keys `content` and `isError`. -/
structure ToolCallResult where
  content : List String
  isError : Bool
deriving DecidableEq, Repr

/-- Lines 457-460 of `call_tool`: build the returned dict from the remote
response fields verbatim. -/
def wrapToolResponse (r : ToolResponse) : ToolCallResult :=
  { content := r.content, isError := r.isError }

/-- Body of `MCPClient.call_tool` on a started instance with a live
session (lines 455-460): issue the call on the shared session (modelled
by `remote`, which either raises or returns a response) and wrap the
response fields; no branch inspects `isError`. -/
def call_tool (remote : String → List (String × String) → Except Exc ToolResponse)
    (tool_name : String) (arguments : List (String × String)) :
    Except Exc ToolCallResult :=
  match remote tool_name arguments with
  | Except.error e => Except.error e
  | Except.ok r => Except.ok (wrapToolResponse r)

/-! ### Two concurrent `call_tool` callers and the per-instance lock

The critical section of `call_tool` is `async with self._lock:` around the
single `await self._session.call_tool(...)`. Each caller task has three
program points: before acquiring the lock, request in flight (inside the
lock, awaiting the session call), and finished. A scheduler step picks a
task; a task blocked on the held lock makes no progress. -/

/-- Program counter of one `call_tool` caller. -/
inductive GPc where
  | beforeLock
  | inCall
  | finished
deriving DecidableEq, Repr

/-- One caller task: program point and recorded return value. -/
structure GatewayTask where
  pc : GPc
  result : Option ToolCallResult
deriving DecidableEq, Repr

/-- Two caller tasks plus the `asyncio.Lock` (`self._lock`): `none` means
free, `some w` means held by task `w`. -/
structure GatewaySys where
  t0 : GatewayTask
  t1 : GatewayTask
  lockHeldBy : Option Bool
deriving DecidableEq, Repr

/-- Both callers about to enter `call_tool`, lock free. -/
def initGatewaySys : GatewaySys :=
  { t0 := { pc := GPc.beforeLock, result := none }
    t1 := { pc := GPc.beforeLock, result := none }
    lockHeldBy := none }

/-- One cooperative step of caller `who` (`false` = first task, `true` =
second task). `remote w` is the session response to the request of task
`w` (each task issues its own request). Acquiring the lock succeeds only
when free; completing the session call records the wrapped result and
releases the lock on exiting the `async with` block. -/
def stepTask (remote : Bool → ToolResponse) (who : Bool) (s : GatewaySys) :
    GatewaySys :=
  let t := if who then s.t1 else s.t0
  match t.pc with
  | GPc.beforeLock =>
      match s.lockHeldBy with
      | none =>
          let t2 := { t with pc := GPc.inCall }
          if who then { s with t1 := t2, lockHeldBy := some true }
          else { s with t0 := t2, lockHeldBy := some false }
      | some _ => s
  | GPc.inCall =>
      let t2 := { t with pc := GPc.finished,
                         result := some (wrapToolResponse (remote who)) }
      if who then { s with t1 := t2, lockHeldBy := none }
      else { s with t0 := t2, lockHeldBy := none }
  | GPc.finished => s

/-- Run a schedule (list of task choices) from a system state. -/
def runSched (remote : Bool → ToolResponse) (sched : List Bool)
    (s : GatewaySys) : GatewaySys :=
  sched.foldl (fun acc w => stepTask remote w acc) s

/-- A task has an in-flight request on the shared session. -/
def inFlight (t : GatewayTask) : Prop := t.pc = GPc.inCall

instance (t : GatewayTask) : Decidable (inFlight t) := by
  unfold inFlight; infer_instance

/-- Gateway invariant: an in-flight task holds the lock, and a finished
task has recorded the wrapped response to its own request. -/
def gatewayInv (remote : Bool → ToolResponse) (s : GatewaySys) : Prop :=
  (s.t0.pc = GPc.inCall → s.lockHeldBy = some false) ∧
  (s.t1.pc = GPc.inCall → s.lockHeldBy = some true) ∧
  (s.t0.pc = GPc.finished → s.t0.result = some (wrapToolResponse (remote false))) ∧
  (s.t1.pc = GPc.finished → s.t1.result = some (wrapToolResponse (remote true)))

/-! ## Helper lemmas -/

/-- Resolving the readiness future does not touch the session slot. -/
theorem resolveFuture_session (s : ClientState) :
    (resolveFuture s).session = s.session := by
  unfold resolveFuture
  cases h : s.startedFuture with
  | none => rfl
  | some f => cases f <;> rfl

/-- Resolving the readiness future does not touch the started flag. -/
theorem resolveFuture_started (s : ClientState) :
    (resolveFuture s).started = s.started := by
  unfold resolveFuture
  cases h : s.startedFuture with
  | none => rfl
  | some f => cases f <;> rfl

/-! ## Theorems about the configuration validator and construction -/

/-- C7: the configuration validator raises exactly on the four invalid
combinations, distinguished by four pairwise distinct messages; `__init__`
constructs a configuration exactly when the validator accepts (so no
object exists, and no launch parameters, on violation). Name presence is
Python truthiness, matching the source. -/
theorem validate_auth_contract :
    (∀ name workspace_key skill_key : Option String,
        validate_auth name workspace_key skill_key
          = authSpecVerdict name workspace_key skill_key) ∧
    List.Pairwise Ne
      ([AuthError.noCredential, AuthError.bothCredentials,
        AuthError.missingNameForWorkspace,
        AuthError.namePresentForScoped].map authErrorMessage) ∧
    (∀ (name workspace_key skill_key : Option String)
        (nats_servers version : String) (log_level : Option String)
        (e : AuthError),
        clientInit name workspace_key skill_key nats_servers version log_level
            = Except.error e
          ↔ validate_auth name workspace_key skill_key = Except.error e) := by
  refine ⟨?_, by decide, ?_⟩
  · intro name workspace_key skill_key
    cases hw : workspace_key.isSome <;> cases hs : skill_key.isSome <;>
      cases hn : truthy name <;>
        simp [validate_auth, authSpecVerdict, hw, hs, hn]
  · intro name workspace_key skill_key nats_servers version log_level e
    cases h : validate_auth name workspace_key skill_key <;>
      simp [clientInit, h]

/-- C10: the name checks of `_validate_auth` use truthiness while the
credential checks test for `None`: an empty-string name together with a
workspace credential is rejected as missing-name, an empty-string name
together with a scoped credential is accepted, and an empty-string
workspace credential still counts as a present credential. -/
theorem empty_name_truthiness :
    (∀ wk : String, validate_auth (some "") (some wk) none
        = Except.error AuthError.missingNameForWorkspace) ∧
    (∀ sk : String, validate_auth (some "") none (some sk) = Except.ok ()) ∧
    validate_auth (some "X") (some "") none = Except.ok () := by
  have hn : truthy (some "") = false := by decide
  exact ⟨fun wk => by simp [validate_auth, hn],
         fun sk => by simp [validate_auth, hn],
         rfl⟩

/-- C8 counterexample: the configuration (name `X`, workspace credential
`""`, no scoped credential) passes validation — the credential checks test
for `None` — yet the environment-building branches test truthiness, so the
constructed launch environment contains NEITHER credential key (and no
name key): the launch environment does not contain exactly one credential
key for every valid configuration. -/
theorem empty_credential_drops_env_keys :
    (clientInit (some "X") (some "") none defaultNatsServers "latest"
        none).toOption.isSome = true ∧
    ((clientInit (some "X") (some "") none defaultNatsServers "latest"
        none).toOption.map envKeys).getD []
      = ["NATS_SERVERS"] := by
  exact ⟨rfl, rfl⟩

/-- Key list of the constructed environment, by the three truthiness
branches of `buildEnv`. -/
theorem buildEnvKeys (name wk sk : Option String) (ns : String)
    (ll : Option String) :
    (buildEnv name wk sk ns ll).map Prod.fst
      = ["NATS_SERVERS"]
        ++ (if truthy wk then ["WORKSPACE_KEY", "SKILL_NAME"]
            else if truthy sk then ["SKILL_KEY"] else [])
        ++ (if truthy ll then ["LOG_LEVEL"] else []) := by
  unfold buildEnv
  cases truthy wk <;> cases truthy sk <;> cases truthy ll <;> simp

/-- Entry always written first by `buildEnv`: the endpoint key with the
configured value. -/
theorem buildEnv_head (name wk sk : Option String) (ns : String)
    (ll : Option String) :
    ("NATS_SERVERS", ns) ∈ buildEnv name wk sk ns ll := by
  unfold buildEnv
  cases truthy wk <;> cases truthy sk <;> cases truthy ll <;> simp

/-- C8 (amended): for every configuration accepted by the validator whose
supplied credential strings are non-empty (truthiness agrees with
presence), the launch environment contains exactly one of the two
credential keys, contains the name key iff the workspace credential is
present, always contains the endpoint key with the configured value
(default `nats://localhost:4222`), contains the log-level key iff a
truthy log level was provided, and contains no other keys. -/
theorem env_construction_valid (name workspace_key skill_key : Option String)
    (nats_servers version : String) (log_level : Option String)
    (cfg : ClientConfig)
    (hok : clientInit name workspace_key skill_key nats_servers version
        log_level = Except.ok cfg)
    (hwk : truthy workspace_key = workspace_key.isSome)
    (hsk : truthy skill_key = skill_key.isSome) :
    (("WORKSPACE_KEY" ∈ envKeys cfg) ↔ workspace_key.isSome = true) ∧
    (("SKILL_KEY" ∈ envKeys cfg) ↔ skill_key.isSome = true) ∧
    (¬ ("WORKSPACE_KEY" ∈ envKeys cfg ∧ "SKILL_KEY" ∈ envKeys cfg)) ∧
    (("WORKSPACE_KEY" ∈ envKeys cfg) ∨ ("SKILL_KEY" ∈ envKeys cfg)) ∧
    (("SKILL_NAME" ∈ envKeys cfg) ↔ ("WORKSPACE_KEY" ∈ envKeys cfg)) ∧
    (("NATS_SERVERS", nats_servers) ∈ cfg.serverParams.env) ∧
    (("LOG_LEVEL" ∈ envKeys cfg) ↔ truthy log_level = true) ∧
    (∀ k ∈ envKeys cfg,
        k ∈ ["NATS_SERVERS", "WORKSPACE_KEY", "SKILL_NAME", "SKILL_KEY",
             "LOG_LEVEL"]) := by
  unfold clientInit at hok
  cases hval : validate_auth name workspace_key skill_key with
  | error e => rw [hval] at hok; exact absurd hok (by simp)
  | ok u =>
    rw [hval] at hok
    simp only [Except.ok.injEq] at hok
    subst hok
    have hone : workspace_key.isSome = true ∨ skill_key.isSome = true := by
      cases h1 : workspace_key.isSome with
      | true => exact Or.inl rfl
      | false =>
        cases h2 : skill_key.isSome with
        | true => exact Or.inr rfl
        | false => simp [validate_auth, h1, h2] at hval
    have hboth : ¬ (workspace_key.isSome = true ∧ skill_key.isSome = true) := by
      rintro ⟨h1, h2⟩
      simp [validate_auth, h1, h2] at hval
    simp only [envKeys]
    rw [buildEnvKeys, hwk, hsk]
    cases hw : workspace_key.isSome with
    | false =>
      cases hs : skill_key.isSome with
      | false =>
        rw [hw, hs] at hone
        exact absurd hone (by simp)
      | true =>
        cases hl : truthy log_level <;>
          simp [hw, hs, hl, buildEnv_head]
    | true =>
      cases hs : skill_key.isSome with
      | true => exact absurd ⟨hw, hs⟩ hboth
      | false =>
        cases hl : truthy log_level <;>
          simp [hw, hs, hl, buildEnv_head]

/-- Witness for C8 (amended) at the workspace-credential configuration
`(name="X", workspace_key="WSK_1")`. -/
theorem env_construction_valid_witness :
    "WORKSPACE_KEY" ∈ envKeys exampleWorkspaceConfig :=
  (env_construction_valid (some "X") (some "WSK_1") none defaultNatsServers
    "latest" none exampleWorkspaceConfig rfl rfl rfl).1.mpr rfl

/-- C9 (code behaviour at the failing input): the version selector never
reaches the launch arguments — for every constructed configuration the
command is the hard-coded `node` and the arguments are the hard-coded
local path (lines 224-225; the `npx @skilder-ai/runtime@<version>` lines
are commented out), so with version `1.2.3` the arguments are not the
`["@skilder-ai/runtime@1.2.3"]` that the repository tests assert. -/
theorem version_not_in_args :
    (∀ (name workspace_key skill_key : Option String)
        (nats_servers version : String) (log_level : Option String)
        (cfg : ClientConfig),
        clientInit name workspace_key skill_key nats_servers version
            log_level = Except.ok cfg →
        cfg.serverParams.command = "node" ∧
        cfg.serverParams.args
          = ["/Users/ben/web/alpinai/Skilder/packages/runtime/dist/index.js"]) ∧
    (((clientInit (some "X") (some "WSK_1") none defaultNatsServers "1.2.3"
        none).toOption.map (fun c => c.serverParams.args)).getD []
      = ["/Users/ben/web/alpinai/Skilder/packages/runtime/dist/index.js"]) ∧
    (((clientInit (some "X") (some "WSK_1") none defaultNatsServers "1.2.3"
        none).toOption.map (fun c => c.serverParams.args)).getD []
      ≠ ["@skilder-ai/runtime@1.2.3"]) := by
  refine ⟨?_, rfl, by decide⟩
  intro name workspace_key skill_key nats_servers version log_level cfg hok
  unfold clientInit at hok
  cases hval : validate_auth name workspace_key skill_key with
  | error e => rw [hval] at hok; exact absurd hok (by simp)
  | ok u =>
    rw [hval] at hok
    simp only [Except.ok.injEq] at hok
    subst hok
    exact ⟨rfl, rfl⟩

/-! ## Theorems about the tool invocation gateway -/

/-- C6: on a started instance whose session call returns a response,
`call_tool` returns the dictionary with the `content` and `isError`
fields verbatim from the remote response; no branch of `call_tool`
inspects `isError`, so an `isError = true` response is returned as data,
never raised. -/
theorem call_tool_verbatim
    (remote : String → List (String × String) → Except Exc ToolResponse)
    (tool_name : String) (arguments : List (String × String))
    (r : ToolResponse)
    (h : remote tool_name arguments = Except.ok r) :
    call_tool remote tool_name arguments
      = Except.ok { content := r.content, isError := r.isError } := by
  simp [call_tool, h, wrapToolResponse]

/-- Witness for C6 at a concrete remote whose response has
`isError = true`: the flagged failure comes back as data. -/
theorem call_tool_verbatim_witness :
    call_tool (fun _ _ => Except.ok { content := ["boom"], isError := true })
        "t" []
      = Except.ok { content := ["boom"], isError := true } :=
  call_tool_verbatim
    (fun _ _ => Except.ok { content := ["boom"], isError := true })
    "t" [] { content := ["boom"], isError := true } rfl

/-! ## Theorems about the lifecycle state machine -/

/-- C1 counterexample: starting the runner from the post-`start()` state
(fresh pending future, no session), the state visible at the runner's
second suspension point — while `await session.initialize()` is pending,
so before the handshake has succeeded and before the readiness signal is
resolved — already holds the published session handle: the shared slot is
not absent at all times outside the handshake-success-to-teardown window. -/
theorem session_visible_before_handshake :
    ((run_session RunnerOutcome.okThenStop launchedState).visible[1]?).map
        (fun v => (v.session, v.startedFuture))
      = some (some sessionHandle, some FutureSt.pending) := by decide

/-- C1 (amended): the Session Runner publishes the handle when the
protocol session is opened — before the initialize handshake completes —
and the slot is cleared back to absent in the final cleanup step on every
exit of the runner task (normal, exceptional, or cancelled): the slot is
absent before the session object is created, holds the handle from
creation to exit, and is absent after the runner has exited. -/
theorem runner_session_lifecycle (o : RunnerOutcome) (s : ClientState)
    (h : s.session = none) :
    (run_session o s).final.session = none ∧
    (∀ v ∈ (run_session o s).visible.take 1, v.session = none) ∧
    (∀ v ∈ (run_session o s).visible.drop 1,
        v.session = some sessionHandle) := by
  cases o <;>
    simp [run_session, runnerFinally, runnerExcept, resolveFuture_session, h]

/-- Witness for C1 (amended) at the happy-path outcome from the
post-`start()` state. -/
theorem runner_session_lifecycle_witness :
    (run_session RunnerOutcome.okThenStop launchedState).final.session
      = none :=
  (runner_session_lifecycle RunnerOutcome.okThenStop launchedState rfl).1

/-- C2: whenever the readiness future does not resolve within the startup
timeout (whether or not the stuck runner had already published the session
slot), `start()` raises the startup-timeout error, and afterwards the
session handle, the runner task reference, and the readiness future are
all absent and the started flag is false; the recorded runner exception is
the suppressed cancellation delivered to the runner. -/
theorem start_timeout_state (s : ClientState) (p : Bool)
    (h : s.started = false) :
    (start s (StartBehavior.timeout p)).2.1 = StartExit.startupTimeoutError ∧
    (start s (StartBehavior.timeout p)).1.session = none ∧
    (start s (StartBehavior.timeout p)).1.runnerTask = none ∧
    (start s (StartBehavior.timeout p)).1.startedFuture = none ∧
    (start s (StartBehavior.timeout p)).1.started = false ∧
    (start s (StartBehavior.timeout p)).1.runnerException
      = some Exc.cancelledError := by
  cases p <;>
    simp [start, h, clearState, runnerFinally, runnerExcept, resolveFuture]

/-- Witness for C2 from the freshly constructed state. -/
theorem start_timeout_state_witness :
    (start initialClientState (StartBehavior.timeout false)).2.1
      = StartExit.startupTimeoutError :=
  (start_timeout_state initialClientState false rfl).1

/-- C3 (code behaviour at the failing input, exception `err 0` raised
during channel acquisition): the runner does capture the exception and
resolve the readiness signal before propagating (first three conjuncts,
as the claim says), and `start()` does invoke `stop()` — but awaiting the
failed runner task inside `stop()` re-raises the captured exception,
which propagates bare out of `start()` instead of the wrapping
startup-failed error of line 363 (that line is unreachable for ordinary
exceptions); all session state is nevertheless cleared. -/
theorem runner_failure_bare_propagation :
    (run_session (RunnerOutcome.acquireRaise (Exc.err 0))
        launchedState).final.runnerException = some (Exc.err 0) ∧
    (run_session (RunnerOutcome.acquireRaise (Exc.err 0))
        launchedState).final.startedFuture = some FutureSt.done ∧
    (run_session (RunnerOutcome.acquireRaise (Exc.err 0))
        launchedState).exit = RunnerExit.raised (Exc.err 0) ∧
    (start initialClientState (StartBehavior.runnerDone
        (RunnerOutcome.acquireRaise (Exc.err 0)))).2.1
      = StartExit.raised (Exc.err 0) ∧
    (start initialClientState (StartBehavior.runnerDone
        (RunnerOutcome.acquireRaise (Exc.err 0)))).2.1
      ≠ StartExit.startupFailedError (Exc.err 0) ∧
    (start initialClientState (StartBehavior.runnerDone
        (RunnerOutcome.acquireRaise (Exc.err 0)))).1.session = none ∧
    (start initialClientState (StartBehavior.runnerDone
        (RunnerOutcome.acquireRaise (Exc.err 0)))).1.runnerTask = none ∧
    (start initialClientState (StartBehavior.runnerDone
        (RunnerOutcome.acquireRaise (Exc.err 0)))).1.startedFuture = none ∧
    (start initialClientState (StartBehavior.runnerDone
        (RunnerOutcome.acquireRaise (Exc.err 0)))).1.started = false := by
  decide

/-- Every `stop()` leaves the started flag false and no task reference. -/
theorem stop_post (s : ClientState) (a : Bool) :
    (stop s a).1.started = false ∧ (stop s a).1.runnerTask = none := by
  unfold stop
  by_cases hg : (s.started = false ∧ s.runnerTask = none)
  · rw [if_pos hg]; exact hg
  · rw [if_neg hg]
    rcases hp : stopAwait { s with stopRequested := true } a with ⟨s2, e?⟩
    cases e? <;> simp [clearState]

/-- A `stop()` in the Idle shape (not started, no task) is the identity. -/
theorem stop_noop_of (s : ClientState) (a : Bool)
    (h1 : s.started = false) (h2 : s.runnerTask = none) :
    stop s a = (s, StopExit.normal) := by
  simp [stop, h1, h2]

/-- A `start()` on an already-started controller returns immediately,
unchanged, with no task launched. -/
theorem start_noop_of (s : ClientState) (b : StartBehavior)
    (h : s.started = true) :
    start s b = (s, StartExit.ok, false) := by
  simp [start, h]

/-- C4: the lifecycle operations are idempotent no-ops in their terminal
states — a second `start()` after a successful one returns the state
unchanged and launches no runner task (third component false); `stop()`
before any `start()` is the identity; and a second `stop()` right after
any `stop()` is the identity. -/
theorem lifecycle_idempotent :
    (∀ (s : ClientState) (b : StartBehavior), s.started = false →
        start (start s StartBehavior.handshakeOk).1 b
          = ((start s StartBehavior.handshakeOk).1, StartExit.ok, false)) ∧
    (∀ (s : ClientState) (a : Bool),
        s.started = false → s.runnerTask = none →
        stop s a = (s, StopExit.normal)) ∧
    (∀ (s : ClientState) (a a2 : Bool),
        stop (stop s a).1 a2 = ((stop s a).1, StopExit.normal)) := by
  refine ⟨?_, ?_, ?_⟩
  · intro s b h
    exact start_noop_of _ b (by simp [start, h])
  · exact stop_noop_of
  · intro s a a2
    exact stop_noop_of _ a2 (stop_post s a).1 (stop_post s a).2

/-! ## Theorems about the tool invocation gateway lock -/

/-- Invariant preservation: one cooperative step of either caller keeps
the gateway invariant. -/
theorem stepTask_preserves_inv (remote : Bool → ToolResponse) (who : Bool)
    (s : GatewaySys) (h : gatewayInv remote s) :
    gatewayInv remote (stepTask remote who s) := by
  obtain ⟨h0, h1, h2, h3⟩ := h
  cases who with
  | false =>
    cases hp : s.t0.pc with
    | beforeLock =>
      cases hl : s.lockHeldBy with
      | none =>
        have hstep : stepTask remote false s
            = { s with t0 := { s.t0 with pc := GPc.inCall },
                       lockHeldBy := some false } := by
          simp [stepTask, hp, hl]
        rw [hstep]
        exact ⟨fun _ => rfl,
               fun hc => absurd (hl.symm.trans (h1 hc)) (by simp),
               fun hc => by simp at hc,
               fun hc => h3 hc⟩
      | some w =>
        have hstep : stepTask remote false s = s := by
          simp [stepTask, hp, hl]
        rw [hstep]; exact ⟨h0, h1, h2, h3⟩
    | inCall =>
      have hstep : stepTask remote false s
          = { s with
                t0 := { s.t0 with
                          pc := GPc.finished,
                          result := some (wrapToolResponse (remote false)) },
                lockHeldBy := none } := by
        simp [stepTask, hp]
      rw [hstep]
      exact ⟨fun hc => by simp at hc,
             fun hc => absurd ((h0 hp).symm.trans (h1 hc)) (by simp),
             fun _ => rfl,
             fun hc => h3 hc⟩
    | finished =>
      have hstep : stepTask remote false s = s := by
        simp [stepTask, hp]
      rw [hstep]; exact ⟨h0, h1, h2, h3⟩
  | true =>
    cases hp : s.t1.pc with
    | beforeLock =>
      cases hl : s.lockHeldBy with
      | none =>
        have hstep : stepTask remote true s
            = { s with t1 := { s.t1 with pc := GPc.inCall },
                       lockHeldBy := some true } := by
          simp [stepTask, hp, hl]
        rw [hstep]
        exact ⟨fun hc => absurd (hl.symm.trans (h0 hc)) (by simp),
               fun _ => rfl,
               fun hc => h2 hc,
               fun hc => by simp at hc⟩
      | some w =>
        have hstep : stepTask remote true s = s := by
          simp [stepTask, hp, hl]
        rw [hstep]; exact ⟨h0, h1, h2, h3⟩
    | inCall =>
      have hstep : stepTask remote true s
          = { s with
                t1 := { s.t1 with
                          pc := GPc.finished,
                          result := some (wrapToolResponse (remote true)) },
                lockHeldBy := none } := by
        simp [stepTask, hp]
      rw [hstep]
      exact ⟨fun hc => absurd ((h1 hp).symm.trans (h0 hc)) (by simp),
             fun hc => by simp at hc,
             fun hc => h2 hc,
             fun _ => rfl⟩
    | finished =>
      have hstep : stepTask remote true s = s := by
        simp [stepTask, hp]
      rw [hstep]; exact ⟨h0, h1, h2, h3⟩

/-- Invariant of the initial gateway state. -/
theorem gatewayInv_init (remote : Bool → ToolResponse) :
    gatewayInv remote initGatewaySys := by
  refine ⟨?_, ?_, ?_, ?_⟩ <;> intro hc <;> simp [initGatewaySys] at hc

/-- Invariant after any schedule. -/
theorem runSched_inv (remote : Bool → ToolResponse) (sched : List Bool)
    (s : GatewaySys) (h : gatewayInv remote s) :
    gatewayInv remote (runSched remote sched s) := by
  induction sched generalizing s with
  | nil => exact h
  | cons w ws ih => exact ih _ (stepTask_preserves_inv remote w s h)

/-- C5: for every interleaving of the two concurrent `call_tool` callers,
the shared session never has two overlapping in-flight requests (the
per-instance lock serializes them); every caller that finishes has
recorded the wrapped response to its own request; and under the schedule
that lets both run to completion, both finish with their own distinct
results. -/
theorem call_tool_serialized :
    (∀ (remote : Bool → ToolResponse) (sched : List Bool),
        ¬ (inFlight (runSched remote sched initGatewaySys).t0 ∧
           inFlight (runSched remote sched initGatewaySys).t1)) ∧
    (∀ (remote : Bool → ToolResponse) (sched : List Bool),
        ((runSched remote sched initGatewaySys).t0.pc = GPc.finished →
          (runSched remote sched initGatewaySys).t0.result
            = some (wrapToolResponse (remote false))) ∧
        ((runSched remote sched initGatewaySys).t1.pc = GPc.finished →
          (runSched remote sched initGatewaySys).t1.result
            = some (wrapToolResponse (remote true)))) ∧
    (∀ remote : Bool → ToolResponse,
        (runSched remote [false, false, true, true] initGatewaySys).t0.result
          = some (wrapToolResponse (remote false)) ∧
        (runSched remote [false, false, true, true] initGatewaySys).t1.result
          = some (wrapToolResponse (remote true))) := by
  refine ⟨?_, ?_, ?_⟩
  · rintro remote sched ⟨hf0, hf1⟩
    obtain ⟨h0, h1, _, _⟩ :=
      runSched_inv remote sched initGatewaySys (gatewayInv_init remote)
    have e := (h0 hf0).symm.trans (h1 hf1)
    simp at e
  · intro remote sched
    obtain ⟨_, _, h2, h3⟩ :=
      runSched_inv remote sched initGatewaySys (gatewayInv_init remote)
    exact ⟨h2, h3⟩
  · intro remote
    exact ⟨rfl, rfl⟩

end MCP
